import Mathlib

/-!
Verification development for the per-realm WAMP routing core
(crossbar/router/router.py): Router (session attach/detach, message
dispatch, authorization pipeline, role registry) and RouterFactory
(realm registry, realm startup, teardown on last detach).

The Python classes are embedded as explicit state structures with pure
transition functions. Python exceptions are modelled by the result type
PyRes, which carries the state at the point of the raise, so that
partial mutations performed before a raise (for example the forwarding
of a detach to Broker and Dealer) are visible in the result. Calls into
the external Broker and Dealer collaborators are recorded in an event
log rather than interpreted, since those engines are out of scope.
-/

namespace Crossbar

/-- Keyed association-list lookup, insert and erase, standing in for the
Python dict operations used by the source (membership test, item
assignment, del). -/
def dictInsert {α β : Type} [DecidableEq α] (k : α) (v : β) (l : List (α × β)) :
    List (α × β) :=
  (k, v) :: l.filter (fun p => p.1 ≠ k)

/-- Deletion of a key from an association list (Python del d[k]). -/
def dictErase {α β : Type} [DecidableEq α] (k : α) (l : List (α × β)) :
    List (α × β) :=
  l.filter (fun p => p.1 ≠ k)

/-- Well-formedness of an association list as a dict: keys are unique.
Python dicts satisfy this structurally. -/
def dictWF {α β : Type} (l : List (α × β)) : Prop :=
  (l.map Prod.fst).Nodup

/-- The four WAMP actions accepted by Router.authorize; the source
asserts action is one of call, register, publish, subscribe. -/
inductive WampAction : Type where
  | call
  | register
  | publish
  | subscribe
  deriving DecidableEq, Repr

/-- The session capability contract the router relies on: a session id,
an authrole, an authid, and whether the object carries client-session
details (Python hasattr(session, specific attribute)). -/
structure Session : Type where
  _session_id : Nat
  _authrole : String
  _authid : String
  has_session_details : Bool
  deriving DecidableEq, Repr

/-- Source def _is_client_session(session): hasattr check on the
session object. -/
def _is_client_session (session : Session) : Bool :=
  session.has_session_details

/-- A normalized authorization record: allow, cache, and an optional
disclose key (present only when the source sets it). -/
structure Authorization : Type where
  allow : Bool
  cache : Bool
  disclose : Option Bool
  deriving DecidableEq, Repr

/-- The raw value a role authorizer may resolve to: either a legacy
bare boolean, or an already-structured authorization record. -/
inductive RawAuthorization : Type where
  | bool (b : Bool)
  | dict (a : Authorization)
  deriving DecidableEq, Repr

/-- A role as the router sees it: a URI and an authorize capability.
The three concrete variants live in crossbar/router/role.py, outside
this repository slice; the capability is kept abstract as a function. -/
structure RouterRole : Type where
  uri : String
  authorize : Session → String → WampAction → RawAuthorization

/-- Modelled from the spec: RouterTrustedRole (crossbar/router/role.py
is not under src/) is the trusted, always-allow role variant installed
at Router construction. -/
def RouterTrustedRole (uri : String) : RouterRole :=
  { uri := uri, authorize := fun _ _ _ => RawAuthorization.bool true }

/-- Calls the router forwards to its external Broker and Dealer,
recorded by session id in the order made. -/
inductive EngineEvent : Type where
  | brokerAttach (sid : Nat)
  | brokerDetach (sid : Nat)
  | dealerAttach (sid : Nat)
  | dealerDetach (sid : Nat)
  deriving DecidableEq, Repr

/-- The distinct raise sites of the source, one constructor per error
kind named by the spec. keyError models the Python KeyError from a
failing dict lookup (the NotFound kind); assertionError models a
failing assert statement; attributeError models the Python
AttributeError from accessing an attribute an object lacks. -/
inductive PyError : Type where
  | duplicateAttach (sid : Nat)
  | notAttached (sid : Nat)
  | reservedRole (uri : String)
  | protocolError (msgClass : String)
  | keyError
  | assertionError
  | attributeError
  | backendUnavailable
  | invalidConfig
  | logicError
  deriving DecidableEq, Repr

/-- Result of a Python operation on mutable state: either a normal
return with the final state, or a raised exception together with the
state at the moment of the raise (mutations made before the raise
persist, as they do for Python object state). -/
inductive PyRes (σ : Type) (α : Type) : Type where
  | ok (s : σ) (val : α)
  | exn (s : σ) (e : PyError)

/-- Realm configuration as consumed by start_realm: name, optional
store section, optional mqtt_payload_format. -/
structure StoreConfig : Type where
  type : String
  deriving DecidableEq, Repr

/-- A realm store instance as created by start_realm from its config;
the backends themselves are external. -/
inductive RealmStore : Type where
  | lmdb (config : StoreConfig)
  | memory (config : StoreConfig)
  deriving DecidableEq, Repr

/-- Realm configuration dict (the fields of realm.config read by the
source). -/
structure RealmConfig : Type where
  name : String
  store : Option StoreConfig
  mqtt_payload_format : Option String
  deriving DecidableEq, Repr

/-- Modelled from the spec: RouterOptions (crossbar/router/init module
is not under src/) is an options record; the core never inspects it, so
a single optional uri_check field suffices. -/
structure RouterOptions : Type where
  uri_check : Option String := none
  deriving DecidableEq, Repr

/-- Modelled from the spec: the loose URI-check mode constant used for
the factory default options. -/
def RouterOptions.URI_CHECK_LOOSE : String := "loose"

/-- State of one Router instance (class Router): realm name, options,
optional store, mqtt payload format, trace configuration, the session
registry keyed by session id, the attached counter, the role registry
keyed by role URI, and the log of calls forwarded to Broker/Dealer. -/
structure Router : Type where
  realm : String
  _options : RouterOptions
  _store : Option RealmStore
  _mqtt_payload_format : Option String
  _trace_traffic : Bool
  _trace_traffic_roles_include : Option (List String)
  _trace_traffic_roles_exclude : List String
  _session_id_to_session : List (Nat × Session)
  _attached : Int
  _roles : List (String × RouterRole)
  engineEvents : List EngineEvent

/-- Router.RESERVED_ROLES: roles with these URIs are built in and
cannot be added or dropped. -/
def Router.RESERVED_ROLES : List String := ["trusted"]

/-- Router constructor: Python init with options defaulting when None,
trace exclusion defaulting to the trusted role, empty session registry,
zero attached count, and the role registry holding exactly the trusted
role. -/
def Router.init (realm : RealmConfig) (options : Option RouterOptions)
    (store : Option RealmStore) (mqtt_payload_format : Option String) : Router :=
  { realm := realm.name
    _options := options.getD {}
    _store := store
    _mqtt_payload_format := mqtt_payload_format
    _trace_traffic := false
    _trace_traffic_roles_include := none
    _trace_traffic_roles_exclude := ["trusted"]
    _session_id_to_session := []
    _attached := 0
    _roles := [("trusted", RouterTrustedRole "trusted")]
    engineEvents := [] }

/-- Router.attach: if the session id is already registered, raise
(duplicate attach) before touching anything; otherwise register the
session when it is a client session (non-client sessions are only
logged), forward attach to Broker and Dealer, increment the attached
counter, and return the two role-feature descriptors (kept opaque). -/
def Router.attach (r : Router) (session : Session) : PyRes Router (Unit × Unit) :=
  if (r._session_id_to_session.lookup session._session_id).isSome then
    PyRes.exn r (PyError.duplicateAttach session._session_id)
  else
    let reg := dictInsert session._session_id session r._session_id_to_session
    let r1 :=
      if _is_client_session session then
        { r with _session_id_to_session := reg }
      else
        r
    let ev := r1.engineEvents ++
      [EngineEvent.brokerAttach session._session_id,
       EngineEvent.dealerAttach session._session_id]
    let r2 := { r1 with engineEvents := ev }
    let r3 := { r2 with _attached := r2._attached + 1 }
    PyRes.ok r3 ((), ())

/-- Router.detach: forward detach to Broker and Dealer first; then
remove the session from the registry if present, or raise (not
attached) when absent and the session is a client session; finally
decrement the attached counter. The returned Bool reports whether the
source then calls factory.onLastDetach(self), which it does exactly
when the decremented counter is falsy, that is equals zero. -/
def Router.detach (r : Router) (session : Session) : PyRes (Router × Bool) Unit :=
  let ev := r.engineEvents ++
    [EngineEvent.brokerDetach session._session_id,
     EngineEvent.dealerDetach session._session_id]
  let r1 := { r with engineEvents := ev }
  if (r1._session_id_to_session.lookup session._session_id).isSome then
    let reg := dictErase session._session_id r1._session_id_to_session
    let r2 := { r1 with _session_id_to_session := reg }
    let r3 := { r2 with _attached := r2._attached - 1 }
    PyRes.ok (r3, r3._attached == 0) ()
  else
    if _is_client_session session then
      PyRes.exn (r1, false) (PyError.notAttached session._session_id)
    else
      let r3 := { r1 with _attached := r1._attached - 1 }
      PyRes.ok (r3, r3._attached == 0) ()

/-- Router.has_role: membership of the URI in the role registry. -/
def Router.has_role (r : Router) (uri : String) : Bool :=
  (r._roles.lookup uri).isSome

/-- Router.add_role: raise on a reserved role URI; otherwise report
whether a role under that URI existed and overwrite it. -/
def Router.add_role (r : Router) (role : RouterRole) : PyRes Router Bool :=
  if role.uri ∈ Router.RESERVED_ROLES then
    PyRes.exn r (PyError.reservedRole role.uri)
  else
    let overwritten := (r._roles.lookup role.uri).isSome
    PyRes.ok { r with _roles := dictInsert role.uri role r._roles } overwritten

/-- Router.drop_role: raise on a reserved role URI; otherwise remove
the role if present, returning whether it existed. -/
def Router.drop_role (r : Router) (role : RouterRole) : PyRes Router Bool :=
  if role.uri ∈ Router.RESERVED_ROLES then
    PyRes.exn r (PyError.reservedRole role.uri)
  else
    if (r._roles.lookup role.uri).isSome then
      PyRes.ok { r with _roles := dictErase role.uri r._roles } true
    else
      PyRes.ok r false

/-- autobahn message.Invocation.MESSAGE_TYPE, the WAMP code the source
compares an Error message request_type against. -/
def Invocation_MESSAGE_TYPE : Nat := 68

/-- The decoded WAMP message kinds a transport may hand to process. An
Error message carries the embedded request_type code; kinds outside the
dispatch table that the source may still receive are represented
explicitly (goodbye, hello) or by their class name (other). -/
inductive WampMessage : Type where
  | publish
  | subscribe
  | unsubscribe
  | register
  | unregister
  | call
  | cancel
  | yield
  | error (request_type : Nat)
  | goodbye
  | hello
  | other (className : String)
  deriving DecidableEq, Repr

/-- The Python class name of a message, as interpolated into the
ProtocolError text by the source. -/
def WampMessage.className : WampMessage → String
  | .publish => "Publish"
  | .subscribe => "Subscribe"
  | .unsubscribe => "Unsubscribe"
  | .register => "Register"
  | .unregister => "Unregister"
  | .call => "Call"
  | .cancel => "Cancel"
  | .yield => "Yield"
  | .error _ => "Error"
  | .goodbye => "Goodbye"
  | .hello => "Hello"
  | .other c => c

/-- The nine Broker/Dealer handler methods process can dispatch to. -/
inductive Handler : Type where
  | brokerProcessPublish
  | brokerProcessSubscribe
  | brokerProcessUnsubscribe
  | dealerProcessRegister
  | dealerProcessUnregister
  | dealerProcessCall
  | dealerProcessCancel
  | dealerProcessYield
  | dealerProcessInvocationError
  deriving DecidableEq, Repr

/-- Router.process: the isinstance dispatch chain. The Broker and
Dealer are external, so their combined state is abstract (σ) and each
handler is an uninterpreted state transformer supplied by run; process
applies exactly the matching handler, or raises ProtocolError with the
offending class name leaving the engine state untouched. -/
def Router.process {σ : Type} (st : σ) (run : Handler → σ → σ)
    (msg : WampMessage) : PyRes σ Handler :=
  match msg with
  | .publish => PyRes.ok (run Handler.brokerProcessPublish st) Handler.brokerProcessPublish
  | .subscribe => PyRes.ok (run Handler.brokerProcessSubscribe st) Handler.brokerProcessSubscribe
  | .unsubscribe => PyRes.ok (run Handler.brokerProcessUnsubscribe st) Handler.brokerProcessUnsubscribe
  | .register => PyRes.ok (run Handler.dealerProcessRegister st) Handler.dealerProcessRegister
  | .unregister => PyRes.ok (run Handler.dealerProcessUnregister st) Handler.dealerProcessUnregister
  | .call => PyRes.ok (run Handler.dealerProcessCall st) Handler.dealerProcessCall
  | .cancel => PyRes.ok (run Handler.dealerProcessCancel st) Handler.dealerProcessCancel
  | .yield => PyRes.ok (run Handler.dealerProcessYield st) Handler.dealerProcessYield
  | .error rt =>
      if rt = Invocation_MESSAGE_TYPE then
        PyRes.ok (run Handler.dealerProcessInvocationError st) Handler.dealerProcessInvocationError
      else
        PyRes.exn st (PyError.protocolError (WampMessage.error rt).className)
  | m => PyRes.exn st (PyError.protocolError m.className)

/-- The got_authorization callback inside Router.authorize: a bare
boolean result is wrapped as allow/cache, with disclose set to false
additionally for call and publish actions; the auto_disclose_trusted
switch is hard-coded off in the source. -/
def got_authorization (action : WampAction) (role : String)
    (authorization : RawAuthorization) : Authorization :=
  let a :=
    match authorization with
    | RawAuthorization.bool b =>
        { allow := b
          cache := false
          disclose :=
            if action = WampAction.call ∨ action = WampAction.publish then
              some false
            else
              none }
    | RawAuthorization.dict a => a
  let auto_disclose_trusted := false
  if auto_disclose_trusted ∧ role = "trusted" ∧
      (action = WampAction.call ∨ action = WampAction.publish) then
    { a with disclose := some true }
  else
    a

/-- Router.authorize: resolve the authrole of the session in the role
registry; when present call that role authorizer, when absent resolve
to the bare boolean False without invoking any role (safety first);
then normalize through got_authorization. The asynchronous future is
modelled by its resolved value, and the operation raises nothing. -/
def Router.authorize (r : Router) (session : Session) (uri : String)
    (action : WampAction) : Authorization :=
  let role := session._authrole
  let raw :=
    match r._roles.lookup role with
    | some ro => ro.authorize session uri action
    | none => RawAuthorization.bool false
  got_authorization action role raw

/-- State of the RouterFactory (class RouterFactory): the realm
registry mapping realm URI to Router, the default options, and the
auto-create flag. -/
structure RouterFactory : Type where
  _routers : List (String × Router)
  _options : RouterOptions
  _auto_create_realms : Bool

/-- RouterFactory constructor: empty registry, options defaulting to
loose URI checking, auto-creation off. -/
def RouterFactory.init (options : Option RouterOptions) : RouterFactory :=
  { _routers := []
    _options := options.getD { uri_check := some RouterOptions.URI_CHECK_LOOSE }
    _auto_create_realms := false }

/-- The dynamically typed realm value Python hands to the Router
constructor: start_realm passes a RouterRealm object carrying a config
dict, while RouterFactory.get passes its registry key, a bare realm
URI string. -/
inductive RealmHandle : Type where
  | obj (config : RealmConfig)
  | str (uri : String)
  deriving DecidableEq, Repr

/-- Router construction as Python executes it: the first thing the
constructor body needs from the realm argument is realm.config (read
on line 95 of the source), so a RouterRealm-like object (RealmHandle.obj,
carrying its config) yields the initialized Router, while a bare URI
string has no config attribute and the access raises AttributeError
before any router exists. -/
def Router.initFrom (realm : RealmHandle) (options : Option RouterOptions)
    (store : Option RealmStore) (mqtt_payload_format : Option String) :
    Except PyError Router :=
  match realm with
  | RealmHandle.obj config =>
      Except.ok (Router.init config options store mqtt_payload_format)
  | RealmHandle.str _ => Except.error PyError.attributeError

/-- RouterFactory.get: with auto-creation off, plain registry lookup,
where a missing key raises (Python KeyError). With auto-creation on
and the realm registered, the registered router is returned; when it
is missing, the source evaluates self.router(self, realm, self._options)
with realm being the bare URI string, so the constructor raises
AttributeError (see Router.initFrom) before the registration
assignment can execute, leaving the factory unchanged. -/
def RouterFactory.get (f : RouterFactory) (realm : String) :
    PyRes RouterFactory Router :=
  if f._auto_create_realms then
    match f._routers.lookup realm with
    | some r => PyRes.ok f r
    | none =>
        match Router.initFrom (RealmHandle.str realm) (some f._options) none none with
        | Except.error e => PyRes.exn f e
        | Except.ok r => PyRes.ok { f with _routers := dictInsert realm r f._routers } r
  else
    match f._routers.lookup realm with
    | some r => PyRes.ok f r
    | none => PyRes.exn f PyError.keyError

/-- RouterFactory.onLastDetach: asserts the realm of the router is
registered, then deletes it from the registry. -/
def RouterFactory.onLastDetach (f : RouterFactory) (router : Router) :
    PyRes RouterFactory Unit :=
  if (f._routers.lookup router.realm).isSome then
    PyRes.ok { f with _routers := dictErase router.realm f._routers } ()
  else
    PyRes.exn f PyError.assertionError

/-- RouterFactory.start_realm: asserts the realm name is not yet
registered; resolves the optional store section (lmdb requires the
HAS_LMDB deployment flag, memory is always available, any other type
is a logic error); validates the optional mqtt_payload_format against
opaque/json/cbor with default opaque; only then constructs the Router
and registers it under the realm URI. -/
def RouterFactory.start_realm (HAS_LMDB : Bool) (f : RouterFactory)
    (realm : RealmConfig) : PyRes RouterFactory Router :=
  let uri := realm.name
  if (f._routers.lookup uri).isSome then
    PyRes.exn f PyError.assertionError
  else
    let storeRes : Except PyError (Option RealmStore) :=
      match realm.store with
      | none => Except.ok none
      | some store_config =>
          if store_config.type = "lmdb" then
            if ¬ HAS_LMDB then
              Except.error PyError.backendUnavailable
            else
              Except.ok (some (RealmStore.lmdb store_config))
          else if store_config.type = "memory" then
            Except.ok (some (RealmStore.memory store_config))
          else
            Except.error PyError.logicError
    match storeRes with
    | Except.error e => PyRes.exn f e
    | Except.ok store =>
        let mqttRes : Except PyError String :=
          match realm.mqtt_payload_format with
          | none => Except.ok "opaque"
          | some fmt =>
              if fmt ∈ ["opaque", "json", "cbor"] then
                Except.ok fmt
              else
                Except.error PyError.invalidConfig
        match mqttRes with
        | Except.error e => PyRes.exn f e
        | Except.ok mqtt_payload_format =>
            let router := Router.init realm (some f._options) store
              (some mqtt_payload_format)
            PyRes.ok { f with _routers := dictInsert uri router f._routers } router

/-- Router.detach as it executes against the owning factory: the
Router.detach transition, with the factory.onLastDetach(self) call it
makes on reaching zero applied to the factory state. -/
def detachWithFactory (f : RouterFactory) (r : Router) (session : Session) :
    PyRes (RouterFactory × Router) Unit :=
  match Router.detach r session with
  | PyRes.exn (r1, _) e => PyRes.exn (f, r1) e
  | PyRes.ok (r1, fired) _ =>
      if fired then
        match RouterFactory.onLastDetach f r1 with
        | PyRes.ok f1 _ => PyRes.ok (f1, r1) ()
        | PyRes.exn f1 e => PyRes.exn (f1, r1) e
      else
        PyRes.ok (f, r1) ()

/-- The fixed dispatch table stated by the specification (section 4.1),
written from the words of the spec as the specification side of the
refinement theorem about Router.process. -/
def specDispatchTable : WampMessage → Option Handler
  | WampMessage.publish => some Handler.brokerProcessPublish
  | WampMessage.subscribe => some Handler.brokerProcessSubscribe
  | WampMessage.unsubscribe => some Handler.brokerProcessUnsubscribe
  | WampMessage.register => some Handler.dealerProcessRegister
  | WampMessage.unregister => some Handler.dealerProcessUnregister
  | WampMessage.call => some Handler.dealerProcessCall
  | WampMessage.cancel => some Handler.dealerProcessCancel
  | WampMessage.yield => some Handler.dealerProcessYield
  | WampMessage.error rt =>
      if rt = Invocation_MESSAGE_TYPE then some Handler.dealerProcessInvocationError
      else none
  | _ => none

/-- Number of registry entries stored under a key. -/
def entryCount {α β : Type} [DecidableEq α] (k : α) (l : List (α × β)) : Nat :=
  (l.filter (fun p => p.1 = k)).length

section DictLemmas

variable {α β : Type} [DecidableEq α]

theorem lookup_filter_ne (l : List (α × β)) {k u : α} (h : k ≠ u) :
    (l.filter (fun p => p.1 ≠ u)).lookup k = l.lookup k := by
  induction l with
  | nil => rfl
  | cons p t ih =>
      simp only [ne_eq, decide_not] at ih
      rcases p with ⟨a, b⟩
      by_cases hp : a = u
      · subst hp
        have hk : (k == a) = false := by simp [h]
        simp [List.filter_cons, List.lookup, hk, ih]
      · by_cases hk : k = a
        · subst hk
          simp [List.filter_cons, hp, List.lookup]
        · have hk' : (k == a) = false := by simp [hk]
          simp [List.filter_cons, hp, List.lookup, hk', ih]

theorem lookup_filter_self (l : List (α × β)) (k : α) :
    (l.filter (fun p => p.1 ≠ k)).lookup k = none := by
  induction l with
  | nil => rfl
  | cons p t ih =>
      simp only [ne_eq, decide_not] at ih
      rcases p with ⟨a, b⟩
      by_cases hp : a = k
      · simp only [List.filter_cons, ne_eq, decide_not, hp]
        simp [ih]
      · have hk : (k == a) = false := by simp [Ne.symm hp]
        simp [List.filter_cons, hp, List.lookup, hk, ih]

theorem dictInsert_lookup_self (k : α) (v : β) (l : List (α × β)) :
    (dictInsert k v l).lookup k = some v := by
  simp [dictInsert, List.lookup]

theorem dictInsert_lookup_ne (v : β) (l : List (α × β)) {k u : α} (h : k ≠ u) :
    (dictInsert u v l).lookup k = l.lookup k := by
  have hk : (k == u) = false := by simp [h]
  have hfl := lookup_filter_ne (β := β) l h
  simp only [ne_eq, decide_not] at hfl
  simp [dictInsert, List.lookup, hk, hfl]

theorem dictErase_lookup_self (k : α) (l : List (α × β)) :
    (dictErase k l).lookup k = none := by
  have hfl := lookup_filter_self (β := β) l k
  simp only [ne_eq, decide_not] at hfl
  simp [dictErase, hfl]

theorem dictErase_lookup_ne (l : List (α × β)) {k u : α} (h : k ≠ u) :
    (dictErase u l).lookup k = l.lookup k := by
  have hfl := lookup_filter_ne (β := β) l h
  simp only [ne_eq, decide_not] at hfl
  simp [dictErase, hfl]

theorem entryCount_zero_of_not_mem {k : α} {l : List (α × β)}
    (h : k ∉ l.map Prod.fst) : entryCount k l = 0 := by
  unfold entryCount
  rw [List.length_eq_zero, List.filter_eq_nil_iff]
  intro p hp
  simp only [decide_eq_true_eq]
  intro hk
  exact h (hk ▸ List.mem_map_of_mem Prod.fst hp)

theorem entryCount_one_of_lookup {k : α} {l : List (α × β)}
    (hwf : dictWF l) (h : (l.lookup k).isSome = true) : entryCount k l = 1 := by
  induction l with
  | nil => simp [List.lookup] at h
  | cons p t ih =>
      have hwf' : dictWF t := (List.nodup_cons.mp hwf).2
      by_cases hk : p.1 = k
      · have hne : p.1 ∉ t.map Prod.fst := (List.nodup_cons.mp hwf).1
        have ht0 : entryCount k t = 0 := entryCount_zero_of_not_mem (hk ▸ hne)
        simp [entryCount, List.filter_cons, hk] at ht0 ⊢
        exact ht0
      · have hk' : (k == p.1) = false := by
          simp only [beq_eq_false_iff_ne, ne_eq]
          exact fun hc => hk hc.symm
        have hlk : (t.lookup k).isSome = true := by
          simpa [List.lookup, hk'] using h
        have := ih hwf' hlk
        simpa [entryCount, List.filter_cons, hk] using this

end DictLemmas

/-- C1: authorize for a session whose authrole is not in the role
registry resolves, for every router state, session, URI and action and
independently of every installed role, to the fixed denying record
with allow = false (disclose false is added for call/publish by the
boolean normalization), and no error is raised (the operation is total
on the modelled state). -/
theorem authorize_missing_role_denies (r : Router) (session : Session)
    (uri : String) (action : WampAction)
    (h : r._roles.lookup session._authrole = none) :
    Router.authorize r session uri action =
      { allow := false
        cache := false
        disclose :=
          if action = WampAction.call ∨ action = WampAction.publish then
            some false
          else
            none } := by
  simp [Router.authorize, got_authorization, h]

/-- Witness for C1 at a concrete router and session: the freshly
constructed router only holds the trusted role, so an anonymous
session is denied. -/
theorem authorize_missing_role_denies_witness :
    Router.authorize (Router.init { name := "realm1", store := none, mqtt_payload_format := none } none none none)
      { _session_id := 1, _authrole := "anonymous", _authid := "alice", has_session_details := true }
      "com.example.topic1" WampAction.call =
      { allow := false, cache := false, disclose := some false } := by
  have h := authorize_missing_role_denies
    (Router.init { name := "realm1", store := none, mqtt_payload_format := none } none none none)
    { _session_id := 1, _authrole := "anonymous", _authid := "alice", has_session_details := true }
    "com.example.topic1" WampAction.call rfl
  simpa using h

/-- C2: when the resolved raw authorization of the session role is a
bare boolean b, authorize returns allow = b and cache = false, with
disclose = false present exactly for the call and publish actions and
no disclose key otherwise. -/
theorem authorize_bool_normalization (r : Router) (session : Session)
    (uri : String) (action : WampAction) (ro : RouterRole) (b : Bool)
    (hrole : r._roles.lookup session._authrole = some ro)
    (hraw : ro.authorize session uri action = RawAuthorization.bool b) :
    Router.authorize r session uri action =
      { allow := b
        cache := false
        disclose :=
          if action = WampAction.call ∨ action = WampAction.publish then
            some false
          else
            none } := by
  simp [Router.authorize, got_authorization, hrole, hraw]

/-- A concrete realm configuration used by the concrete instantiations
below. -/
def realm1Config : RealmConfig :=
  { name := "realm1", store := none, mqtt_payload_format := none }

/-- A freshly constructed router for realm1. -/
def freshRouter : Router := Router.init realm1Config none none none

/-- A static role answering every authorization request with the bare
boolean True. -/
def staticUserRole : RouterRole :=
  { uri := "user", authorize := fun _ _ _ => RawAuthorization.bool true }

/-- A client session authenticated under the user role. -/
def sessionA : Session :=
  { _session_id := 7, _authrole := "user", _authid := "alice",
    has_session_details := true }

/-- A non-client session (no client-session details). -/
def sessionRlink : Session :=
  { _session_id := 9, _authrole := "node", _authid := "node1",
    has_session_details := false }

/-- The fresh router after Router.add_role installed the static user
role. -/
def routerWithUserRole : Router :=
  match Router.add_role freshRouter staticUserRole with
  | PyRes.ok r _ => r
  | PyRes.exn r _ => r

/-- The fresh router after Router.attach attached sessionA. -/
def routerWithA : Router :=
  match Router.attach freshRouter sessionA with
  | PyRes.ok r _ => r
  | PyRes.exn r _ => r

/-- Witness for C2 at the concrete router, role and session: a raw
True normalizes with disclose = false for a call and with no disclose
key for a subscribe. -/
theorem authorize_bool_normalization_witness :
    Router.authorize routerWithUserRole sessionA "com.example.proc1" WampAction.call =
      { allow := true, cache := false, disclose := some false } ∧
    Router.authorize routerWithUserRole sessionA "com.example.topic1" WampAction.subscribe =
      { allow := true, cache := false, disclose := none } := by
  constructor
  · have h := authorize_bool_normalization routerWithUserRole sessionA
      "com.example.proc1" WampAction.call staticUserRole true rfl rfl
    simpa using h
  · have h := authorize_bool_normalization routerWithUserRole sessionA
      "com.example.topic1" WampAction.subscribe staticUserRole true rfl rfl
    simpa using h

/-- C3: Router.process refines the fixed dispatch table: for every
abstract Broker/Dealer state and every interpretation of the nine
handlers, a message kind in the table makes process apply exactly the
handler the table names, and every other kind makes process raise
ProtocolError carrying the offending message class, with the engine
state returned untouched (no Broker or Dealer mutation). -/
theorem process_follows_dispatch_table {σ : Type} (st : σ)
    (run : Handler → σ → σ) (msg : WampMessage) :
    Router.process st run msg =
      (match specDispatchTable msg with
       | some h => PyRes.ok (run h st) h
       | none => PyRes.exn st (PyError.protocolError msg.className)) := by
  cases msg with
  | error rt =>
      by_cases h : rt = Invocation_MESSAGE_TYPE
      · simp [Router.process, specDispatchTable, h]
      · simp [Router.process, specDispatchTable, WampMessage.className, h]
  | publish => rfl
  | subscribe => rfl
  | unsubscribe => rfl
  | register => rfl
  | unregister => rfl
  | call => rfl
  | cancel => rfl
  | yield => rfl
  | goodbye => rfl
  | hello => rfl
  | other c => rfl

/-- C4: attaching a session whose identifier is already registered
raises the duplicate-attach error with the router state unchanged, and
the registry (being a dict with unique keys) still holds exactly one
entry for that identifier. -/
theorem attach_duplicate_fails (r : Router) (session : Session)
    (hwf : dictWF r._session_id_to_session)
    (h : (r._session_id_to_session.lookup session._session_id).isSome = true) :
    Router.attach r session =
      PyRes.exn r (PyError.duplicateAttach session._session_id) ∧
    entryCount session._session_id r._session_id_to_session = 1 := by
  constructor
  · simp [Router.attach, h]
  · exact entryCount_one_of_lookup hwf h

/-- Witness for C4: after attaching sessionA to the fresh router, a
second attach of sessionA fails and the registry holds exactly one
entry for its identifier. -/
theorem attach_duplicate_fails_witness :
    Router.attach routerWithA sessionA =
      PyRes.exn routerWithA (PyError.duplicateAttach 7) ∧
    entryCount 7 routerWithA._session_id_to_session = 1 :=
  attach_duplicate_fails routerWithA sessionA (by unfold dictWF; decide) (by rfl)

/-- C5: detaching a client session that is not in the session registry
first forwards the detach to Broker and Dealer (the two events are
appended to the forwarded-call log even though the call then fails),
then raises the not-attached error, leaving the attached counter and
the registry unchanged. -/
theorem detach_unattached_client_fails (r : Router) (session : Session)
    (hclient : _is_client_session session = true)
    (habs : r._session_id_to_session.lookup session._session_id = none) :
    ∃ r1, Router.detach r session =
        PyRes.exn (r1, false) (PyError.notAttached session._session_id) ∧
      r1.engineEvents = r.engineEvents ++
        [EngineEvent.brokerDetach session._session_id,
         EngineEvent.dealerDetach session._session_id] ∧
      r1._attached = r._attached ∧
      r1._session_id_to_session = r._session_id_to_session := by
  refine ⟨{ r with engineEvents := r.engineEvents ++ [EngineEvent.brokerDetach session._session_id, EngineEvent.dealerDetach session._session_id] }, ?_, rfl, rfl, rfl⟩
  simp [Router.detach, habs, hclient]

/-- Witness for C5: detaching sessionA from the fresh router (never
attached) fails with the not-attached error while the counter stays at
zero and the forwarding to Broker and Dealer has happened. -/
theorem detach_unattached_client_fails_witness :
    ∃ r1, Router.detach freshRouter sessionA =
        PyRes.exn (r1, false) (PyError.notAttached 7) ∧
      r1.engineEvents = freshRouter.engineEvents ++
        [EngineEvent.brokerDetach 7, EngineEvent.dealerDetach 7] ∧
      r1._attached = freshRouter._attached ∧
      r1._session_id_to_session = freshRouter._session_id_to_session :=
  detach_unattached_client_fails freshRouter sessionA (by rfl) (by rfl)

/-- C6: for a router hosting no session yet (attached counter zero,
session identifier unregistered) whose realm is registered with its
owning factory, attach followed by detach of that sole session drives
the counter to one and back to zero; the detach makes the single
onLastDetach call into the factory (the fired flag of the modelled
detach is true), which removes the realm URI from the realm registry;
moreover a realm successfully created by start_realm is registered
under its URI in the resulting factory, and a second onLastDetach for
the same realm raises, so the removal happens exactly once. -/
theorem attach_detach_last_session (f : RouterFactory) (r : Router)
    (session : Session)
    (hzero : r._attached = 0)
    (habs : r._session_id_to_session.lookup session._session_id = none)
    (hreg : (f._routers.lookup r.realm).isSome = true) :
    (match Router.attach r session with
     | PyRes.ok r1 _ =>
         r1._attached = 1 ∧
         (match Router.detach r1 session with
          | PyRes.ok (r2, fired) _ =>
              r2._attached = 0 ∧ fired = true ∧
              detachWithFactory f r1 session =
                PyRes.ok ({ f with _routers := dictErase r.realm f._routers }, r2) () ∧
              (dictErase r.realm f._routers).lookup r.realm = none ∧
              RouterFactory.onLastDetach
                  { f with _routers := dictErase r.realm f._routers } r2 =
                PyRes.exn { f with _routers := dictErase r.realm f._routers }
                  PyError.assertionError
          | PyRes.exn _ _ => False)
     | PyRes.exn _ _ => False) ∧
    (∀ (HAS_LMDB : Bool) (realm : RealmConfig) (f1 : RouterFactory) (router : Router),
      RouterFactory.start_realm HAS_LMDB f realm = PyRes.ok f1 router →
      f1._routers.lookup realm.name = some router) := by
  constructor
  · cases hc : _is_client_session session with
    | true =>
        simp only [Router.attach, Router.detach, detachWithFactory,
          RouterFactory.onLastDetach, habs, hzero, hc, Option.isSome_none,
          Bool.false_eq_true, if_false, if_true, dictInsert_lookup_self,
          dictErase_lookup_self, Option.isSome_some]
        simp [hreg, dictErase_lookup_self]
    | false =>
        simp only [Router.attach, Router.detach, detachWithFactory,
          RouterFactory.onLastDetach, habs, hzero, hc, Option.isSome_none,
          Bool.false_eq_true, if_false, if_true, dictErase_lookup_self]
        simp [hreg, dictErase_lookup_self]
  · intro HAS_LMDB realm f1 router h
    unfold RouterFactory.start_realm at h
    by_cases hin : (List.lookup realm.name f._routers).isSome = true
    · simp [hin] at h
    · simp only [] at h
      rw [if_neg hin] at h
      split at h
      · cases h
      · split at h
        · cases h
        · cases h
          simp [dictInsert_lookup_self]

/-- The factory state after start_realm created realm1 (no store, no
LMDB available, default options). -/
def factoryWithRealm1 : RouterFactory :=
  match RouterFactory.start_realm false (RouterFactory.init none) realm1Config with
  | PyRes.ok f _ => f
  | PyRes.exn f _ => f

/-- The router start_realm created for realm1. -/
def realm1Router : Router :=
  match RouterFactory.start_realm false (RouterFactory.init none) realm1Config with
  | PyRes.ok _ rtr => rtr
  | PyRes.exn _ _ => freshRouter

/-- Witness for C6 at a concrete factory holding realm1, the fresh
realm1 router and the client session sessionA. -/
theorem attach_detach_last_session_witness :
    (match Router.attach freshRouter sessionA with
     | PyRes.ok r1 _ =>
         r1._attached = 1 ∧
         (match Router.detach r1 sessionA with
          | PyRes.ok (r2, fired) _ =>
              r2._attached = 0 ∧ fired = true ∧
              detachWithFactory factoryWithRealm1 r1 sessionA =
                PyRes.ok ({ factoryWithRealm1 with _routers := dictErase freshRouter.realm factoryWithRealm1._routers }, r2) () ∧
              (dictErase freshRouter.realm factoryWithRealm1._routers).lookup freshRouter.realm = none ∧
              RouterFactory.onLastDetach
                  { factoryWithRealm1 with _routers := dictErase freshRouter.realm factoryWithRealm1._routers } r2 =
                PyRes.exn { factoryWithRealm1 with _routers := dictErase freshRouter.realm factoryWithRealm1._routers }
                  PyError.assertionError
          | PyRes.exn _ _ => False)
     | PyRes.exn _ _ => False) :=
  (attach_detach_last_session factoryWithRealm1 freshRouter sessionA rfl rfl rfl).1

/-- C7: the role registry of a freshly constructed router contains the
reserved trusted role; add_role and drop_role on any role whose URI is
trusted raise the reserved-role error with the state untouched, in
every registry state; and every successful add_role or drop_role
leaves the trusted registry entry exactly as it was, so no operation
removes or overwrites the trusted role. -/
theorem trusted_role_reserved (realm : RealmConfig) (options : Option RouterOptions)
    (store : Option RealmStore) (mqtt : Option String)
    (r : Router) (role : RouterRole) :
    (Router.init realm options store mqtt).has_role "trusted" = true ∧
    (role.uri = "trusted" →
      Router.add_role r role = PyRes.exn r (PyError.reservedRole "trusted") ∧
      Router.drop_role r role = PyRes.exn r (PyError.reservedRole "trusted")) ∧
    (∀ r' b, Router.add_role r role = PyRes.ok r' b →
      r'._roles.lookup "trusted" = r._roles.lookup "trusted") ∧
    (∀ r' b, Router.drop_role r role = PyRes.ok r' b →
      r'._roles.lookup "trusted" = r._roles.lookup "trusted") := by
  refine ⟨rfl, ?_, ?_, ?_⟩
  · intro h
    constructor
    · simp [Router.add_role, Router.RESERVED_ROLES, h]
    · simp [Router.drop_role, Router.RESERVED_ROLES, h]
  · intro r' b h
    unfold Router.add_role at h
    split at h
    · cases h
    · rename_i hres
      cases h
      have hne : ("trusted" : String) ≠ role.uri := by
        intro hc
        exact hres (by simp [Router.RESERVED_ROLES, hc.symm])
      simp [dictInsert_lookup_ne _ _ hne]
  · intro r' b h
    unfold Router.drop_role at h
    split at h
    · cases h
    · rename_i hres
      have hne : ("trusted" : String) ≠ role.uri := by
        intro hc
        exact hres (by simp [Router.RESERVED_ROLES, hc.symm])
      split at h
      · cases h
        simp [dictErase_lookup_ne _ hne]
      · cases h
        rfl

/-- Witness for C7: the fresh router has the trusted role; adding or
dropping a role with the trusted URI fails; a successful add_role of
the user role leaves the trusted entry untouched. -/
theorem trusted_role_reserved_witness :
    freshRouter.has_role "trusted" = true ∧
    Router.add_role freshRouter (RouterTrustedRole "trusted") =
      PyRes.exn freshRouter (PyError.reservedRole "trusted") ∧
    Router.drop_role freshRouter (RouterTrustedRole "trusted") =
      PyRes.exn freshRouter (PyError.reservedRole "trusted") ∧
    routerWithUserRole._roles.lookup "trusted" = freshRouter._roles.lookup "trusted" := by
  have h1 := trusted_role_reserved realm1Config none none none freshRouter
    (RouterTrustedRole "trusted")
  have h2 := trusted_role_reserved realm1Config none none none freshRouter
    staticUserRole
  exact ⟨h1.1, (h1.2.1 rfl).1, (h1.2.1 rfl).2, h2.2.2.1 routerWithUserRole false rfl⟩

/-- C8: start_realm is atomic on configuration errors: with the realm
name not yet registered, a config requesting an lmdb store on a
deployment without the LMDB backend fails with the backend-unavailable
error, and a config whose store section resolves (absent, memory, or
lmdb with the backend present) but whose mqtt_payload_format is
outside opaque/json/cbor fails with the invalid-config error; in both
cases the returned factory state is the untouched input, so the realm
URI stays unregistered. -/
theorem start_realm_config_errors (HAS_LMDB : Bool) (f : RouterFactory)
    (realm : RealmConfig)
    (hfree : f._routers.lookup realm.name = none) :
    (∀ sc, realm.store = some sc → sc.type = "lmdb" → HAS_LMDB = false →
      RouterFactory.start_realm HAS_LMDB f realm =
        PyRes.exn f PyError.backendUnavailable ∧
      f._routers.lookup realm.name = none) ∧
    (∀ fmt,
      (realm.store = none ∨
        ∃ sc, realm.store = some sc ∧
          (sc.type = "memory" ∨ (sc.type = "lmdb" ∧ HAS_LMDB = true))) →
      realm.mqtt_payload_format = some fmt →
      fmt ∉ (["opaque", "json", "cbor"] : List String) →
      RouterFactory.start_realm HAS_LMDB f realm =
        PyRes.exn f PyError.invalidConfig ∧
      f._routers.lookup realm.name = none) := by
  constructor
  · intro sc hs ht hl
    refine ⟨?_, hfree⟩
    simp [RouterFactory.start_realm, hfree, hs, ht, hl]
  · intro fmt hst hm hbad
    refine ⟨?_, hfree⟩
    rcases hst with hnone | ⟨sc, hs, hmem | ⟨hlm, hav⟩⟩
    · simp [RouterFactory.start_realm, hfree, hnone, hm, hbad]
    · by_cases hl : sc.type = "lmdb"
      · rw [hl] at hmem
        exact absurd hmem (by decide)
      · simp [RouterFactory.start_realm, hfree, hs, hl, hmem, hm, hbad]
    · simp [RouterFactory.start_realm, hfree, hs, hlm, hav, hm, hbad]

/-- Witness for C8: on a no-LMDB deployment, an lmdb-store config
fails with the backend-unavailable error, and an xml
mqtt_payload_format fails with the invalid-config error; the empty
factory registry is returned unchanged both times. -/
theorem start_realm_config_errors_witness :
    (RouterFactory.start_realm false (RouterFactory.init none)
        { name := "realm1", store := some { type := "lmdb" }, mqtt_payload_format := none } =
      PyRes.exn (RouterFactory.init none) PyError.backendUnavailable ∧
      (RouterFactory.init none)._routers.lookup "realm1" = none) ∧
    (RouterFactory.start_realm false (RouterFactory.init none)
        { name := "realm1", store := none, mqtt_payload_format := some "xml" } =
      PyRes.exn (RouterFactory.init none) PyError.invalidConfig ∧
      (RouterFactory.init none)._routers.lookup "realm1" = none) := by
  constructor
  · exact (start_realm_config_errors false (RouterFactory.init none)
      { name := "realm1", store := some { type := "lmdb" }, mqtt_payload_format := none }
      rfl).1 { type := "lmdb" } rfl rfl rfl
  · exact (start_realm_config_errors false (RouterFactory.init none)
      { name := "realm1", store := none, mqtt_payload_format := some "xml" }
      rfl).2 "xml" (Or.inl rfl) rfl (by decide)

/-- C9: the disabled half of the claim holds — get returns the
registered router for the URI and raises KeyError (the NotFound kind)
when none is registered — and so does the lookup of an already
registered realm under auto-creation; but the auto-create half is a
code bug: with auto-creation enabled and the realm absent, the source
hands the bare URI string to the Router constructor, whose
realm.config access raises AttributeError, so get raises with the
factory unchanged and never constructs, registers or returns the
default router the claim (and the auto-creation feature itself)
intends. -/
theorem get_autocreate_crashes (f : RouterFactory) (realm : String) :
    (f._auto_create_realms = false →
      (∀ r, f._routers.lookup realm = some r →
        RouterFactory.get f realm = PyRes.ok f r) ∧
      (f._routers.lookup realm = none →
        RouterFactory.get f realm = PyRes.exn f PyError.keyError)) ∧
    (f._auto_create_realms = true →
      (∀ r, f._routers.lookup realm = some r →
        RouterFactory.get f realm = PyRes.ok f r) ∧
      (f._routers.lookup realm = none →
        RouterFactory.get f realm = PyRes.exn f PyError.attributeError)) := by
  constructor
  · intro hauto
    constructor
    · intro r hr
      simp [RouterFactory.get, hauto, hr]
    · intro hr
      simp [RouterFactory.get, hauto, hr]
  · intro hauto
    constructor
    · intro r hr
      simp [RouterFactory.get, hauto, hr]
    · intro hr
      simp [RouterFactory.get, Router.initFrom, hauto, hr]

/-- Witness for C9: the empty default factory raises KeyError for
realm1; the factory holding realm1 returns its router; the same empty
factory with auto-creation switched on raises AttributeError for
realm1 (the failing input of the bug) instead of creating it. -/
theorem get_autocreate_crashes_witness :
    RouterFactory.get (RouterFactory.init none) "realm1" =
      PyRes.exn (RouterFactory.init none) PyError.keyError ∧
    RouterFactory.get factoryWithRealm1 "realm1" =
      PyRes.ok factoryWithRealm1 realm1Router ∧
    RouterFactory.get { RouterFactory.init none with _auto_create_realms := true } "realm1" =
      PyRes.exn { RouterFactory.init none with _auto_create_realms := true }
        PyError.attributeError := by
  refine ⟨?_, ?_, ?_⟩
  · exact ((get_autocreate_crashes (RouterFactory.init none) "realm1").1 rfl).2 rfl
  · exact ((get_autocreate_crashes factoryWithRealm1 "realm1").1 rfl).1 realm1Router rfl
  · exact ((get_autocreate_crashes
      { RouterFactory.init none with _auto_create_realms := true } "realm1").2 rfl).2 rfl

/-- The fresh realm1 router with the attached counter set to one, as
if a single non-client session had attached. -/
def routerAttachedOne : Router := { freshRouter with _attached := 1 }

/-- C10: for a non-client session whose identifier is unregistered,
attach never registers it and never raises — two successive attaches
both succeed, each incrementing the counter with the registry
unchanged — and detach of such a session never raises and
unconditionally decrements the counter: from counter one it reaches
zero and fires the onLastDetach notification without any matching
attach, and from counter zero it drives the counter to minus one
without firing (only an exact zero is falsy in the source check). -/
theorem nonclient_attach_detach_counter (r : Router) (session : Session)
    (hnc : _is_client_session session = false)
    (habs : r._session_id_to_session.lookup session._session_id = none) :
    (∃ r1 feat, Router.attach r session = PyRes.ok r1 feat ∧
      r1._session_id_to_session = r._session_id_to_session ∧
      r1._attached = r._attached + 1 ∧
      ∃ r2 feat2, Router.attach r1 session = PyRes.ok r2 feat2 ∧
        r2._session_id_to_session = r._session_id_to_session ∧
        r2._attached = r._attached + 2) ∧
    (∃ r3 fired, Router.detach r session = PyRes.ok (r3, fired) () ∧
      r3._session_id_to_session = r._session_id_to_session ∧
      r3._attached = r._attached - 1 ∧
      (r._attached = 1 → fired = true) ∧
      (r._attached = 0 → fired = false ∧ r3._attached = -1)) := by
  constructor
  · refine ⟨{ r with engineEvents := r.engineEvents ++ [EngineEvent.brokerAttach session._session_id, EngineEvent.dealerAttach session._session_id], _attached := r._attached + 1 }, ((), ()), ?_, rfl, rfl, ?_⟩
    · simp [Router.attach, habs, hnc]
    · refine ⟨{ r with engineEvents := (r.engineEvents ++ [EngineEvent.brokerAttach session._session_id, EngineEvent.dealerAttach session._session_id]) ++ [EngineEvent.brokerAttach session._session_id, EngineEvent.dealerAttach session._session_id], _attached := r._attached + 1 + 1 }, ((), ()), ?_, rfl, ?_⟩
      · simp [Router.attach, habs, hnc]
      · show r._attached + 1 + 1 = r._attached + 2
        ring
  · refine ⟨{ r with engineEvents := r.engineEvents ++ [EngineEvent.brokerDetach session._session_id, EngineEvent.dealerDetach session._session_id], _attached := r._attached - 1 }, r._attached - 1 == 0, ?_, rfl, rfl, ?_, ?_⟩
    · simp [Router.detach, habs, hnc]
    · intro h1
      rw [h1]
      decide
    · intro h0
      rw [h0]
      refine ⟨by decide, ?_⟩
      show ((0 : Int) - 1) = -1
      decide

/-- Witness for C10 at the fresh realm1 router (counter zero) and the
router with counter one, detaching and attaching the non-client
session sessionRlink. -/
theorem nonclient_attach_detach_counter_witness :
    ((∃ r1 feat, Router.attach freshRouter sessionRlink = PyRes.ok r1 feat ∧
      r1._session_id_to_session = freshRouter._session_id_to_session ∧
      r1._attached = freshRouter._attached + 1 ∧
      ∃ r2 feat2, Router.attach r1 sessionRlink = PyRes.ok r2 feat2 ∧
        r2._session_id_to_session = freshRouter._session_id_to_session ∧
        r2._attached = freshRouter._attached + 2) ∧
    (∃ r3 fired, Router.detach freshRouter sessionRlink = PyRes.ok (r3, fired) () ∧
      r3._session_id_to_session = freshRouter._session_id_to_session ∧
      r3._attached = freshRouter._attached - 1 ∧
      (freshRouter._attached = 1 → fired = true) ∧
      (freshRouter._attached = 0 → fired = false ∧ r3._attached = -1))) ∧
    (∃ r3 fired, Router.detach routerAttachedOne sessionRlink = PyRes.ok (r3, fired) () ∧
      r3._session_id_to_session = routerAttachedOne._session_id_to_session ∧
      r3._attached = routerAttachedOne._attached - 1 ∧
      (routerAttachedOne._attached = 1 → fired = true) ∧
      (routerAttachedOne._attached = 0 → fired = false ∧ r3._attached = -1)) :=
  ⟨nonclient_attach_detach_counter freshRouter sessionRlink rfl rfl,
   (nonclient_attach_detach_counter routerAttachedOne sessionRlink rfl rfl).2⟩

end Crossbar
